import Mathlib

/-!
Shallow embedding of the reliable-consumption engine of the collector
service (src/apps/collector/src/messaging/consumer.rs), together with
theorems checking the specification's claims about it.

The embedding models:
  * AMQP field values and header tables (lapin `AMQPValue` / `FieldTable`,
    restricted to the constructors the consumer touches);
  * message properties (lapin `BasicProperties`);
  * `get_retry_count`, `retry_message`, `reject_to_dlq_with_reason`,
    `process_message` and `setup_queues` from `impl Consumer`;
  * the consumption loop of `Consumer::start` as a function over the
    sequence of select outcomes it observes.

Broker calls are modelled as an event trace; the success of the single
republish and of the ack in one invocation are oracle booleans, and the
wall-clock timestamp taken at a DLQ republish is a parameter.
-/

namespace Collector

/-- AMQP field-table value (the constructors of `lapin::types::AMQPValue`
relevant to the consumer; `longUInt` is the u32 case, `longInt` the i32
case, `longString` the string case). -/
inductive AMQPValue where
  | boolean (b : Bool)
  | shortInt (n : Int)
  | longInt (n : Int)
  | longUInt (n : Nat)
  | longLongInt (n : Int)
  | longString (s : String)
  | timestamp (n : Nat)
  deriving DecidableEq

/-- `lapin::types::FieldTable`: a map from header names to values, modelled
as an association list with insert-overwrite semantics (the Rust type wraps
a `BTreeMap`, whose `insert` replaces an existing binding). -/
abbrev FieldTable := List (String × AMQPValue)

/-- Lookup of a header in a field table (`FieldTable::inner().get`). -/
def FieldTable.get : FieldTable → String → Option AMQPValue
  | [], _ => none
  | (k1, v) :: rest, k => if k1 = k then some v else FieldTable.get rest k

/-- `FieldTable::insert`: replaces the binding of the key when present,
otherwise appends it. -/
def FieldTable.insert : FieldTable → String → AMQPValue → FieldTable
  | [], k, v => [(k, v)]
  | (k1, v1) :: rest, k, v =>
      if k1 = k then (k, v) :: rest else (k1, v1) :: FieldTable.insert rest k v

/-- `lapin::BasicProperties`: the AMQP message property bag. Every field is
optional; `lapin`'s `Default` leaves all of them unset. -/
structure BasicProperties where
  contentType : Option String := none
  contentEncoding : Option String := none
  headers : Option FieldTable := none
  deliveryMode : Option Nat := none
  priority : Option Nat := none
  correlationId : Option String := none
  replyTo : Option String := none
  expiration : Option String := none
  messageId : Option String := none
  timestamp : Option Nat := none
  kind : Option String := none
  userId : Option String := none
  appId : Option String := none
  clusterId : Option String := none
  deriving DecidableEq

/-- `BasicProperties::default()`: all fields unset. -/
def BasicProperties.default : BasicProperties := {}

/-- Lookup of a header directly on a property bag (headers absent means no
header is found). -/
def headerOf (props : BasicProperties) (k : String) : Option AMQPValue :=
  match props.headers with
  | none => none
  | some h => FieldTable.get h k

/-- A delivery received from the broker: delivery tag, routing key, payload
bytes and properties (`lapin::message::Delivery`, the fields the consumer
reads). -/
structure Delivery where
  deliveryTag : Nat
  routingKey : String
  data : List Nat
  properties : BasicProperties
  deriving DecidableEq

/-- The outcome of `handler.handle(delivery)`
(`Ok(()) | Err(Transient(reason)) | Err(Permanent(reason))`). -/
inductive HandlerOutcome where
  | ok
  | transient (reason : String)
  | permanent (reason : String)
  deriving DecidableEq

/-- A message handed to `basic_publish`: exchange, routing key, payload and
properties. -/
structure PublishedMessage where
  exchange : String
  routingKey : String
  data : List Nat
  properties : BasicProperties
  deriving DecidableEq

/-- A broker or metrics operation the consumer performed successfully, in
order. `publish` stands for a broker-confirmed `basic_publish`, `ack` for a
successful `basic_ack`. -/
inductive Event where
  | counterInc (name : String)
  | counterVecInc (name : String) (labels : List String)
  | observe (name : String) (labels : List String)
  | publish (msg : PublishedMessage)
  | ack (tag : Nat)
  deriving DecidableEq

/-- `const MAX_RETRIES: u32 = 3`. -/
def MAX_RETRIES : Nat := 3

/-- `const RETRY_DELAY_MS: u64 = 5000`. -/
def RETRY_DELAY_MS : Nat := 5000

/-- `const RETRY_HEADER: &str = "x-retry-count"`. -/
def RETRY_HEADER : String := "x-retry-count"

/-- `const ERROR_REASON_HEADER: &str = "x-error-reason"`. -/
def ERROR_REASON_HEADER : String := "x-error-reason"

/-- `const ERROR_TYPE_HEADER: &str = "x-error-type"`. -/
def ERROR_TYPE_HEADER : String := "x-error-type"

/-- `Consumer::get_retry_count`: the value of the `x-retry-count` header
when present and typed `LongUInt` (u32); any other type or absence yields
0. -/
def get_retry_count (properties : BasicProperties) : Nat :=
  match properties.headers with
  | none => 0
  | some headers =>
      match FieldTable.get headers RETRY_HEADER with
      | some (AMQPValue.longUInt count) => count
      | _ => 0

/-- The message `Consumer::retry_message` hands to `basic_publish`: payload
unchanged, headers of the incoming properties with `x-retry-count` set to
`retry_count + 1` and (when an error reason is given) `x-error-reason` and
`x-error-type = "transient"`, on otherwise default properties with
`delivery_mode = 2`, published to the default exchange under
`{queue_name}.retry`. -/
def retryPublish (queueName : String) (data : List Nat)
    (properties : BasicProperties) (retryCount : Nat)
    (errorReason : Option String) : PublishedMessage :=
  let retryQueue := queueName ++ ".retry"
  let newRetryCount := retryCount + 1
  let headers0 := properties.headers.getD []
  let headers1 := FieldTable.insert headers0 RETRY_HEADER
    (AMQPValue.longUInt newRetryCount)
  let headers2 :=
    match errorReason with
    | some reason =>
        FieldTable.insert
          (FieldTable.insert headers1 ERROR_REASON_HEADER
            (AMQPValue.longString reason))
          ERROR_TYPE_HEADER (AMQPValue.longString "transient")
    | none => headers1
  { exchange := ""
    routingKey := retryQueue
    data := data
    properties :=
      { BasicProperties.default with
          headers := some headers2, deliveryMode := some 2 } }

/-- The message `Consumer::reject_to_dlq_with_reason` hands to
`basic_publish`: payload unchanged, headers of the incoming properties with
`x-error-reason`, `x-error-type` and `x-original-queue` set, on otherwise
default properties with `delivery_mode = 2` and `timestamp = now` (seconds
since the UNIX epoch at the republish), published to the default exchange
under `{queue_name}.dlq`. -/
def dlqPublish (queueName : String) (data : List Nat)
    (properties : BasicProperties) (errorReason errorType : String)
    (now : Nat) : PublishedMessage :=
  let dlqName := queueName ++ ".dlq"
  let headers0 := properties.headers.getD []
  let headers1 := FieldTable.insert headers0 ERROR_REASON_HEADER
    (AMQPValue.longString errorReason)
  let headers2 := FieldTable.insert headers1 ERROR_TYPE_HEADER
    (AMQPValue.longString errorType)
  let headers3 := FieldTable.insert headers2 "x-original-queue"
    (AMQPValue.longString queueName)
  { exchange := ""
    routingKey := dlqName
    data := data
    properties :=
      { BasicProperties.default with
          headers := some headers3, deliveryMode := some 2,
          timestamp := some now } }

/-- `Consumer::retry_message`: publish to `{queue_name}.retry` and await the
broker confirmation; only then ack the original delivery tag. `publishOk`
is whether the publish (including its confirmation) succeeds, `ackOk`
whether the ack succeeds; the trace lists the operations that completed and
the boolean is `true` exactly when the function returns `Ok(())`. A failed
publish returns early through `?`, so no ack is attempted. -/
def retry_message (queueName : String) (deliveryTag : Nat) (data : List Nat)
    (properties : BasicProperties) (retryCount : Nat)
    (errorReason : Option String) (publishOk ackOk : Bool) :
    List Event × Bool :=
  let msg := retryPublish queueName data properties retryCount errorReason
  if publishOk then
    if ackOk then ([Event.publish msg, Event.ack deliveryTag], true)
    else ([Event.publish msg], false)
  else ([], false)

/-- `Consumer::reject_to_dlq_with_reason`: publish to `{queue_name}.dlq`
and await the broker confirmation; only then ack the original delivery
tag. Oracles and trace as in `retry_message`. -/
def reject_to_dlq_with_reason (queueName : String) (deliveryTag : Nat)
    (data : List Nat) (properties : BasicProperties)
    (errorReason errorType : String) (now : Nat) (publishOk ackOk : Bool) :
    List Event × Bool :=
  let msg := dlqPublish queueName data properties errorReason errorType now
  if publishOk then
    if ackOk then ([Event.publish msg, Event.ack deliveryTag], true)
    else ([Event.publish msg], false)
  else ([], false)

/-- `Consumer::process_message`: reads the retry count from the incoming
delivery's headers, dispatches on the handler outcome, and performs metric
updates, republishes and acks in the order of the source. `publishOk`,
`ackOk` and `now` are the oracles of the single republish/ack this
invocation performs. -/
def process_message (queueName : String) (delivery : Delivery)
    (outcome : HandlerOutcome) (publishOk ackOk : Bool) (now : Nat) :
    List Event :=
  let retryCount := get_retry_count delivery.properties
  match outcome with
  | HandlerOutcome.ok =>
      [Event.counterVecInc "messages_processed_total"
        [queueName, delivery.routingKey],
       Event.observe "message_processing_duration_seconds"
        [queueName, "success"]] ++
      (if ackOk then [Event.ack delivery.deliveryTag] else [])
  | HandlerOutcome.transient err =>
      [Event.counterVecInc "messages_failed_total" [queueName, "transient"],
       Event.observe "message_processing_duration_seconds"
        [queueName, "transient_error"]] ++
      (if retryCount ≥ MAX_RETRIES then
        Event.counterInc "messages_dlq_total" ::
          (reject_to_dlq_with_reason queueName delivery.deliveryTag
            delivery.data delivery.properties err "transient" now
            publishOk ackOk).1
      else
        Event.counterInc "messages_retried_total" ::
          (retry_message queueName delivery.deliveryTag delivery.data
            delivery.properties retryCount (some err) publishOk ackOk).1)
  | HandlerOutcome.permanent err =>
      [Event.counterVecInc "messages_failed_total" [queueName, "permanent"],
       Event.observe "message_processing_duration_seconds"
        [queueName, "permanent_error"],
       Event.counterInc "messages_dlq_total"] ++
      (reject_to_dlq_with_reason queueName delivery.deliveryTag
        delivery.data delivery.properties err "permanent" now
        publishOk ackOk).1

/-- The publish events of a trace, in order. -/
def publishes (tr : List Event) : List PublishedMessage :=
  tr.filterMap fun e =>
    match e with
    | Event.publish m => some m
    | _ => none

/-- Whether a trace acks a given delivery tag. -/
def acked (tr : List Event) (tag : Nat) : Bool :=
  tr.any fun e =>
    match e with
    | Event.ack t => t = tag
    | _ => false

/-- Whether an event is a broker side effect (publish or ack). -/
def isBrokerOp (e : Event) : Bool :=
  match e with
  | Event.publish _ => true
  | Event.ack _ => true
  | _ => false

/-- A queue declaration as issued by `queue_declare`: name, durability flag
and argument table. -/
structure QueueDeclaration where
  name : String
  durable : Bool
  args : FieldTable
  deriving DecidableEq

/-- `ConsumerError` (the `thiserror` enum at the bottom of consumer.rs);
its rendered message prefixes are part of the claims. -/
inductive ConsumerError where
  | consumeFailed (msg : String)
  | setupFailed (msg : String)
  deriving DecidableEq

/-- The arguments of the `.retry` queue declaration:
`x-message-ttl = LongInt(RETRY_DELAY_MS as i32)`,
`x-dead-letter-exchange = ""`, `x-dead-letter-routing-key = queue_name`. -/
def retryQueueArgs (queueName : String) : FieldTable :=
  FieldTable.insert
    (FieldTable.insert
      (FieldTable.insert [] "x-message-ttl" (AMQPValue.longInt 5000))
      "x-dead-letter-exchange" (AMQPValue.longString ""))
    "x-dead-letter-routing-key" (AMQPValue.longString queueName)

/-- The arguments of the main queue declaration:
`x-dead-letter-exchange = ""`,
`x-dead-letter-routing-key = "{queue_name}.dlq"`. -/
def mainQueueArgs (queueName : String) : FieldTable :=
  FieldTable.insert
    (FieldTable.insert [] "x-dead-letter-exchange" (AMQPValue.longString ""))
    "x-dead-letter-routing-key" (AMQPValue.longString (queueName ++ ".dlq"))

/-- The `.dlq` declaration of `setup_queues`. -/
def dlqDeclaration (queueName : String) : QueueDeclaration :=
  { name := queueName ++ ".dlq", durable := true, args := [] }

/-- The `.retry` declaration of `setup_queues`. -/
def retryDeclaration (queueName : String) : QueueDeclaration :=
  { name := queueName ++ ".retry", durable := true,
    args := retryQueueArgs queueName }

/-- The main-queue declaration of `setup_queues`. -/
def mainDeclaration (queueName : String) : QueueDeclaration :=
  { name := queueName, durable := true, args := mainQueueArgs queueName }

/-- `Consumer::setup_queues`: declares the DLQ, then the retry queue, then
the main queue, all durable; the first failing declaration aborts with a
`SetupFailed` error naming it. `declare` is the broker's response to each
declaration (`some e` = failure with message `e`). On success the list of
declarations issued is returned. -/
def setup_queues (queueName : String)
    (declare : QueueDeclaration → Option String) :
    Except ConsumerError (List QueueDeclaration) :=
  match declare (dlqDeclaration queueName) with
  | some e =>
      Except.error (ConsumerError.setupFailed ("DLQ setup failed: " ++ e))
  | none =>
      match declare (retryDeclaration queueName) with
      | some e =>
          Except.error
            (ConsumerError.setupFailed ("Retry queue setup failed: " ++ e))
      | none =>
          match declare (mainDeclaration queueName) with
          | some e =>
              Except.error
                (ConsumerError.setupFailed ("Main queue setup failed: " ++ e))
          | none =>
              Except.ok [dlqDeclaration queueName,
                retryDeclaration queueName, mainDeclaration queueName]

/-- One observed outcome of the `tokio::select!` in `Consumer::start`:
either the shutdown notification won, or `consumer.next()` yielded a
delivery (with the oracles its processing will use), a receive error, or
the end of the stream. -/
inductive StreamStep where
  | shutdown
  | delivery (d : Delivery) (outcome : HandlerOutcome)
      (publishOk ackOk : Bool) (now : Nat)
  | recvError
  | streamEnd
  deriving DecidableEq

/-- Why the consumption loop stopped consuming the given observation list:
a shutdown notification, the end of the delivery stream, or the list ran
out with the loop still running. -/
inductive LoopExit where
  | shutdownExit
  | streamEndExit
  | stillRunning
  deriving DecidableEq

/-- The loop body of `Consumer::start` (after the subscription succeeded),
run over the sequence of select outcomes it observes: a shutdown or stream
end breaks the loop, a receive error is logged and the loop continues, and
each delivery is dispatched to `process_message`. Returns the dispatched
traces in order and why the loop stopped. -/
def consume_loop (queueName : String) :
    List StreamStep → List (List Event) × LoopExit
  | [] => ([], LoopExit.stillRunning)
  | StreamStep.shutdown :: _ => ([], LoopExit.shutdownExit)
  | StreamStep.streamEnd :: _ => ([], LoopExit.streamEndExit)
  | StreamStep.recvError :: rest => consume_loop queueName rest
  | StreamStep.delivery d outcome publishOk ackOk now :: rest =>
      let t := consume_loop queueName rest
      (process_message queueName d outcome publishOk ackOk now :: t.1, t.2)

/-- Whether an observation ends the loop (shutdown or stream end). -/
def isExitStep (s : StreamStep) : Bool :=
  match s with
  | StreamStep.shutdown => true
  | StreamStep.streamEnd => true
  | _ => false

/-- Claim C4 as the specification states it, at one input: the DLQ-bound
message carries the three provenance headers, ALL prior headers keep their
values, and the timestamp and delivery mode are set. (Stated from the
spec's words, to be compared with `dlqPublish`; the universal preservation
conjunct is the part the code refutes.) -/
def dlqRepublishAsStated (queueName : String) (data : List Nat)
    (properties : BasicProperties) (errorReason errorType : String)
    (now : Nat) : Prop :=
  let m := dlqPublish queueName data properties errorReason errorType now
  headerOf m.properties ERROR_REASON_HEADER
      = some (AMQPValue.longString errorReason) ∧
  headerOf m.properties ERROR_TYPE_HEADER
      = some (AMQPValue.longString errorType) ∧
  headerOf m.properties "x-original-queue"
      = some (AMQPValue.longString queueName) ∧
  (∀ k v, headerOf properties k = some v → headerOf m.properties k = some v) ∧
  m.properties.timestamp = some now ∧
  m.properties.deliveryMode = some 2

/-- Agreement of two property bags on every field other than the headers
and the delivery metadata (delivery mode, timestamp): the frame condition
claim C5 asserts between the incoming delivery's properties and the
republished message's properties. (Stated from the spec's words, to be
compared with what `retryPublish`/`dlqPublish` build.) -/
def agreesOutsideHeadersAndDeliveryMeta (p q : BasicProperties) : Prop :=
  p.contentType = q.contentType ∧
  p.contentEncoding = q.contentEncoding ∧
  p.priority = q.priority ∧
  p.correlationId = q.correlationId ∧
  p.replyTo = q.replyTo ∧
  p.expiration = q.expiration ∧
  p.messageId = q.messageId ∧
  p.kind = q.kind ∧
  p.userId = q.userId ∧
  p.appId = q.appId ∧
  p.clusterId = q.clusterId

theorem FieldTable.get_insert (ft : FieldTable) (k k2 : String)
    (v : AMQPValue) :
    FieldTable.get (FieldTable.insert ft k v) k2 =
      if k = k2 then some v else FieldTable.get ft k2 := by
  induction ft with
  | nil => simp [FieldTable.insert, FieldTable.get]
  | cons hd tl ih =>
      obtain ⟨k1, v1⟩ := hd
      by_cases h1 : k1 = k
      · subst h1
        by_cases h2 : k1 = k2 <;>
          simp [FieldTable.insert, FieldTable.get, h2]
      · by_cases h2 : k = k2
        · subst h2
          simp [FieldTable.insert, FieldTable.get, h1, ih]
        · simp [FieldTable.insert, FieldTable.get, h1, h2, ih]

theorem get_retry_count_of_header (props : BasicProperties) (n : Nat)
    (h : headerOf props RETRY_HEADER = some (AMQPValue.longUInt n)) :
    get_retry_count props = n := by
  unfold headerOf at h
  unfold get_retry_count
  cases hp : props.headers with
  | none => rw [hp] at h; exact Option.noConfusion h
  | some hs =>
      rw [hp] at h
      simp only [] at h
      simp only [hp, h]

theorem headerOf_retryPublish (q : String) (data : List Nat)
    (props : BasicProperties) (rc : Nat) (reason : String) (k : String) :
    headerOf (retryPublish q data props rc (some reason)).properties k =
      if ERROR_TYPE_HEADER = k then some (AMQPValue.longString "transient")
      else if ERROR_REASON_HEADER = k then
        some (AMQPValue.longString reason)
      else if RETRY_HEADER = k then some (AMQPValue.longUInt (rc + 1))
      else FieldTable.get (props.headers.getD []) k := by
  unfold retryPublish headerOf
  simp only [FieldTable.get_insert]

theorem headerOf_dlqPublish (q : String) (data : List Nat)
    (props : BasicProperties) (er et : String) (now : Nat) (k : String) :
    headerOf (dlqPublish q data props er et now).properties k =
      if "x-original-queue" = k then some (AMQPValue.longString q)
      else if ERROR_TYPE_HEADER = k then some (AMQPValue.longString et)
      else if ERROR_REASON_HEADER = k then some (AMQPValue.longString er)
      else FieldTable.get (props.headers.getD []) k := by
  unfold dlqPublish headerOf
  simp only [FieldTable.get_insert]

/-- C6: for every property bag, `get_retry_count` returns the value of the
`x-retry-count` header when it is present and typed as a 32-bit unsigned
integer (`LongUInt`), and returns 0 when the header is absent or has any
other type. -/
theorem c6_get_retry_count_semantics (props : BasicProperties) :
    (∀ n, headerOf props RETRY_HEADER = some (AMQPValue.longUInt n) →
      get_retry_count props = n) ∧
    (headerOf props RETRY_HEADER = none → get_retry_count props = 0) ∧
    (∀ v, headerOf props RETRY_HEADER = some v →
      (∀ n, v ≠ AMQPValue.longUInt n) → get_retry_count props = 0) := by
  refine ⟨fun n h => get_retry_count_of_header props n h, ?_, ?_⟩
  · intro h
    unfold headerOf at h
    unfold get_retry_count
    cases hp : props.headers with
    | none => simp
    | some hs =>
        rw [hp] at h
        simp only [] at h
        simp only [hp, h]
  · intro v h hv
    unfold headerOf at h
    unfold get_retry_count
    cases hp : props.headers with
    | none => simp [hp] at h
    | some hs =>
        rw [hp] at h
        simp only [] at h
        simp only [hp, h]
        cases v <;> try rfl
        exact absurd rfl (hv _)

/-- Witness for C6 at concrete property bags: a `LongUInt` header is read
back, a signed (`LongInt`) header and an absent header table both read as
0. -/
theorem c6_get_retry_count_witness :
    get_retry_count
        { headers := some [("x-retry-count", AMQPValue.longUInt 2)] } = 2 ∧
    get_retry_count
        { headers := some [("x-retry-count", AMQPValue.longInt 2)] } = 0 ∧
    get_retry_count BasicProperties.default = 0 :=
  ⟨(c6_get_retry_count_semantics _).1 2 (by decide),
   (c6_get_retry_count_semantics _).2.2 (AMQPValue.longInt 2) (by decide)
     (fun _ h => AMQPValue.noConfusion h),
   (c6_get_retry_count_semantics _).2.1 (by decide)⟩

/-- C10: under the guard `retry_count < MAX_RETRIES` established in
`process_message`, the increment `retry_count + 1` computed by
`retry_message` is at most `MAX_RETRIES = 3`, far below `2^32`, so the u32
addition cannot overflow; the retry republish carries exactly that
incremented value. -/
theorem c10_retry_increment_no_overflow (q : String) (data : List Nat)
    (props : BasicProperties) (r : String)
    (h : get_retry_count props < MAX_RETRIES) :
    get_retry_count props + 1 ≤ MAX_RETRIES ∧
    get_retry_count props + 1 < 2 ^ 32 ∧
    headerOf (retryPublish q data props (get_retry_count props)
        (some r)).properties RETRY_HEADER
      = some (AMQPValue.longUInt (get_retry_count props + 1)) := by
  unfold MAX_RETRIES at h ⊢
  refine ⟨by omega, by omega, ?_⟩
  rw [headerOf_retryPublish]
  rw [if_neg (by decide), if_neg (by decide), if_pos rfl]

/-- Witness for C10: the guard and the conclusion hold at a delivery with
no retry header (count 0). -/
theorem c10_retry_increment_no_overflow_witness :
    get_retry_count BasicProperties.default + 1 ≤ MAX_RETRIES ∧
    get_retry_count BasicProperties.default + 1 < 2 ^ 32 ∧
    headerOf (retryPublish "telemetry" [1] BasicProperties.default
        (get_retry_count BasicProperties.default)
        (some "boom")).properties RETRY_HEADER
      = some (AMQPValue.longUInt
          (get_retry_count BasicProperties.default + 1)) :=
  c10_retry_increment_no_overflow "telemetry" [1] BasicProperties.default
    "boom" (by decide)

/-- C2: in both republish paths the ack is issued only after the publish
has been broker-confirmed: a failed publish returns `Err` with no
operation completed (the delivery stays unacked), and any trace that acks
the delivery is exactly a confirmed publish followed by the ack. -/
theorem c2_publish_confirmed_before_ack (q : String) (tag : Nat)
    (data : List Nat) (props : BasicProperties) (rc : Nat)
    (reason : Option String) (er et : String) (now : Nat) :
    (∀ a, retry_message q tag data props rc reason false a = ([], false)) ∧
    (∀ a, reject_to_dlq_with_reason q tag data props er et now false a
        = ([], false)) ∧
    (∀ p a, acked (retry_message q tag data props rc reason p a).1 tag
          = true →
      (retry_message q tag data props rc reason p a).1 =
          [Event.publish (retryPublish q data props rc reason),
            Event.ack tag] ∧
        p = true) ∧
    (∀ p a,
      acked (reject_to_dlq_with_reason q tag data props er et now p a).1
          tag = true →
      (reject_to_dlq_with_reason q tag data props er et now p a).1 =
          [Event.publish (dlqPublish q data props er et now),
            Event.ack tag] ∧
        p = true) := by
  refine ⟨fun a => rfl, fun a => rfl, ?_, ?_⟩
  · intro p a h
    cases p with
    | false => simp [retry_message, acked] at h
    | true =>
        cases a with
        | false => simp [retry_message, acked] at h
        | true => exact ⟨rfl, rfl⟩
  · intro p a h
    cases p with
    | false => simp [reject_to_dlq_with_reason, acked] at h
    | true =>
        cases a with
        | false => simp [reject_to_dlq_with_reason, acked] at h
        | true => exact ⟨rfl, rfl⟩

/-- Witness for C2: a failed retry publish at a concrete input completes no
broker operation and returns the error. -/
theorem c2_publish_confirmed_before_ack_witness :
    retry_message "telemetry" 5 [1] BasicProperties.default 0 (some "boom")
        false true = ([], false) :=
  (c2_publish_confirmed_before_ack "telemetry" 5 [1]
    BasicProperties.default 0 (some "boom") "boom" "transient" 0).1 true

/-- C1: outcome routing of `process_message` (with the republish and ack
succeeding): `Ok` acks the delivery tag with no republish; `Transient`
with incoming retry count `< MAX_RETRIES` republishes to the retry queue;
`Transient` with incoming retry count `≥ MAX_RETRIES` republishes to the
DLQ; `Permanent` always republishes to the DLQ; and the decision depends
only on the retry count read from the incoming delivery's headers. -/
theorem c1_outcome_routing (q : String) (d : Delivery) (now : Nat) :
    (publishes (process_message q d HandlerOutcome.ok true true now) = [] ∧
      acked (process_message q d HandlerOutcome.ok true true now)
        d.deliveryTag = true) ∧
    (∀ r, get_retry_count d.properties < MAX_RETRIES →
      (publishes (process_message q d (HandlerOutcome.transient r) true
          true now)).map PublishedMessage.routingKey = [q ++ ".retry"]) ∧
    (∀ r, MAX_RETRIES ≤ get_retry_count d.properties →
      (publishes (process_message q d (HandlerOutcome.transient r) true
          true now)).map PublishedMessage.routingKey = [q ++ ".dlq"]) ∧
    (∀ r, (publishes (process_message q d (HandlerOutcome.permanent r)
        true true now)).map PublishedMessage.routingKey = [q ++ ".dlq"]) ∧
    (∀ (d2 : Delivery) r,
      get_retry_count d2.properties = get_retry_count d.properties →
      (publishes (process_message q d2 (HandlerOutcome.transient r) true
          true now)).map PublishedMessage.routingKey =
        (publishes (process_message q d (HandlerOutcome.transient r) true
          true now)).map PublishedMessage.routingKey) := by
  refine ⟨⟨?_, ?_⟩, ?_, ?_, ?_, ?_⟩
  · simp [process_message, publishes]
  · simp [process_message, acked]
  · intro r h
    simp only [process_message]
    rw [if_neg (not_le.mpr h)]
    simp [retry_message, publishes, retryPublish]
  · intro r h
    simp only [process_message]
    rw [if_pos h]
    simp [reject_to_dlq_with_reason, publishes, dlqPublish]
  · intro r
    simp [process_message, reject_to_dlq_with_reason, publishes, dlqPublish]
  · intro d2 r h
    simp only [process_message, h]
    by_cases hrc : MAX_RETRIES ≤ get_retry_count d.properties
    · rw [if_pos hrc, if_pos hrc]
      simp [reject_to_dlq_with_reason, publishes, dlqPublish]
    · rw [if_neg hrc, if_neg hrc]
      simp [retry_message, publishes, retryPublish]

/-- Witness for C1: a transient failure on a first delivery (retry count
0) is republished to the retry queue. -/
theorem c1_outcome_routing_witness :
    (publishes (process_message "telemetry"
        ⟨1, "telemetry", [1], BasicProperties.default⟩
        (HandlerOutcome.transient "boom") true true 0)).map
      PublishedMessage.routingKey = ["telemetry" ++ ".retry"] :=
  (c1_outcome_routing "telemetry"
    ⟨1, "telemetry", [1], BasicProperties.default⟩ 0).2.1 "boom" (by decide)

/-- C3: the retry republish carries `x-retry-count = incoming + 1`, which
under the routing guard is at most `MAX_RETRIES`; an `x-retry-count`
header already present as u32 is only overwritten with a strictly larger
value; and a transient failure whose incoming count is already
`MAX_RETRIES` is routed to the DLQ, not the retry queue. -/
theorem c3_retry_header_increment (q : String) (d : Delivery) (r : String)
    (now : Nat) :
    headerOf (retryPublish q d.data d.properties
        (get_retry_count d.properties) (some r)).properties RETRY_HEADER
      = some (AMQPValue.longUInt (get_retry_count d.properties + 1)) ∧
    (get_retry_count d.properties < MAX_RETRIES →
      publishes (process_message q d (HandlerOutcome.transient r) true true
          now)
        = [retryPublish q d.data d.properties
            (get_retry_count d.properties) (some r)] ∧
      get_retry_count d.properties + 1 ≤ MAX_RETRIES) ∧
    (∀ n, headerOf d.properties RETRY_HEADER
        = some (AMQPValue.longUInt n) →
      n < get_retry_count d.properties + 1) ∧
    (MAX_RETRIES ≤ get_retry_count d.properties →
      (publishes (process_message q d (HandlerOutcome.transient r) true
          true now)).map PublishedMessage.routingKey = [q ++ ".dlq"]) := by
  refine ⟨?_, ?_, ?_, ?_⟩
  · rw [headerOf_retryPublish]
    rw [if_neg (by decide), if_neg (by decide), if_pos rfl]
  · intro h
    constructor
    · simp only [process_message]
      rw [if_neg (not_le.mpr h)]
      simp [retry_message, publishes]
    · unfold MAX_RETRIES at h ⊢
      omega
  · intro n hn
    rw [get_retry_count_of_header d.properties n hn]
    omega
  · intro h
    simp only [process_message]
    rw [if_pos h]
    simp [reject_to_dlq_with_reason, publishes, dlqPublish]

/-- Witness for C3: a delivery arriving with `x-retry-count = 2` is
republished with `x-retry-count = 3 ≤ MAX_RETRIES`. -/
theorem c3_retry_header_increment_witness :
    publishes (process_message "telemetry"
        ⟨1, "k", [7],
          { headers := some [("x-retry-count", AMQPValue.longUInt 2)] }⟩
        (HandlerOutcome.transient "boom") true true 0)
      = [retryPublish "telemetry" [7]
          { headers := some [("x-retry-count", AMQPValue.longUInt 2)] }
          (get_retry_count
            { headers := some [("x-retry-count", AMQPValue.longUInt 2)] })
          (some "boom")] ∧
    get_retry_count
        ({ headers :=
            some [("x-retry-count", AMQPValue.longUInt 2)] } :
          BasicProperties) + 1 ≤ MAX_RETRIES :=
  (c3_retry_header_increment "telemetry"
    ⟨1, "k", [7],
      { headers := some [("x-retry-count", AMQPValue.longUInt 2)] }⟩
    "boom" 0).2.1 (by decide)

/-- C4 counterexample: a prior `x-error-reason` header is overwritten by
the handler-supplied reason on the DLQ republish, so "all prior headers
are preserved alongside" fails as stated. -/
theorem c4_prior_header_overwritten :
    ¬ dlqRepublishAsStated "telemetry" []
        { headers := some [("x-error-reason", AMQPValue.longString "old")] }
        "new" "permanent" 7 := by
  intro h
  rcases h with ⟨-, -, -, hpres, -, -⟩
  have hk := hpres "x-error-reason" (AMQPValue.longString "old") (by decide)
  exact absurd hk (by decide)

/-- C4 (amended): the DLQ republish carries `x-error-reason` equal to the
handler-supplied failure string, `x-error-type` equal to the given error
type, and `x-original-queue` equal to the main queue name; every prior
header whose key is not one of those three (in particular any existing
`x-retry-count`) is preserved; and the message timestamp is set to the
republish moment with persistent delivery mode 2. -/
theorem c4_dlq_provenance (q : String) (data : List Nat)
    (props : BasicProperties) (er et : String) (now : Nat) :
    headerOf (dlqPublish q data props er et now).properties
        ERROR_REASON_HEADER = some (AMQPValue.longString er) ∧
    headerOf (dlqPublish q data props er et now).properties
        ERROR_TYPE_HEADER = some (AMQPValue.longString et) ∧
    headerOf (dlqPublish q data props er et now).properties
        "x-original-queue" = some (AMQPValue.longString q) ∧
    (∀ k v, "x-original-queue" ≠ k → ERROR_TYPE_HEADER ≠ k →
      ERROR_REASON_HEADER ≠ k → headerOf props k = some v →
      headerOf (dlqPublish q data props er et now).properties k = some v) ∧
    (∀ v, headerOf props RETRY_HEADER = some v →
      headerOf (dlqPublish q data props er et now).properties RETRY_HEADER
        = some v) ∧
    (dlqPublish q data props er et now).properties.timestamp = some now ∧
    (dlqPublish q data props er et now).properties.deliveryMode
      = some 2 := by
  have hpres : ∀ k v, "x-original-queue" ≠ k → ERROR_TYPE_HEADER ≠ k →
      ERROR_REASON_HEADER ≠ k → headerOf props k = some v →
      headerOf (dlqPublish q data props er et now).properties k
        = some v := by
    intro k v h1 h2 h3 h4
    rw [headerOf_dlqPublish, if_neg h1, if_neg h2, if_neg h3]
    unfold headerOf at h4
    cases hp : props.headers with
    | none => simp [hp] at h4
    | some hs =>
        rw [hp] at h4
        simp only [] at h4
        exact h4
  refine ⟨?_, ?_, ?_, hpres, ?_, rfl, rfl⟩
  · rw [headerOf_dlqPublish, if_neg (by decide), if_neg (by decide),
      if_pos rfl]
  · rw [headerOf_dlqPublish, if_neg (by decide), if_pos rfl]
  · rw [headerOf_dlqPublish, if_pos rfl]
  · exact fun v h =>
      hpres RETRY_HEADER v (by decide) (by decide) (by decide) h

/-- Witness for C4 (amended): at a delivery that arrived with
`x-retry-count = 3`, the DLQ message keeps that header and carries the
provenance reason. -/
theorem c4_dlq_provenance_witness :
    headerOf (dlqPublish "telemetry" []
        { headers := some [("x-retry-count", AMQPValue.longUInt 3)] }
        "bad" "transient" 9).properties ERROR_REASON_HEADER
      = some (AMQPValue.longString "bad") ∧
    headerOf (dlqPublish "telemetry" []
        { headers := some [("x-retry-count", AMQPValue.longUInt 3)] }
        "bad" "transient" 9).properties RETRY_HEADER
      = some (AMQPValue.longUInt 3) :=
  ⟨(c4_dlq_provenance "telemetry" []
      { headers := some [("x-retry-count", AMQPValue.longUInt 3)] }
      "bad" "transient" 9).1,
    (c4_dlq_provenance "telemetry" []
      { headers := some [("x-retry-count", AMQPValue.longUInt 3)] }
      "bad" "transient" 9).2.2.2.2.1 (AMQPValue.longUInt 3) (by decide)⟩

/-- C5 counterexample: the republished message does not keep the other
message properties unchanged — an incoming `content_type` is dropped
(reset to unset) by the rebuilt properties, refuting "all other message
properties are unchanged" at this input. -/
theorem c5_other_props_not_carried :
    ¬ ((retryPublish "telemetry" [1, 2, 3]
          { contentType := some "application/json" } 0
          (some "boom")).data = [1, 2, 3] ∧
        agreesOutsideHeadersAndDeliveryMeta
          { contentType := some "application/json" }
          (retryPublish "telemetry" [1, 2, 3]
            { contentType := some "application/json" } 0
            (some "boom")).properties) := by
  intro h
  have h2 := h.2
  unfold agreesOutsideHeadersAndDeliveryMeta at h2
  exact absurd h2.1 (by decide)

/-- C5 (amended): the payload bytes of every retry and DLQ republish are
bit-identical to the incoming delivery's payload; the republished
properties are rebuilt from the protocol defaults, carrying only the new
headers, persistent delivery mode 2 and (for the DLQ) the republish
timestamp — every other message property is reset to unset rather than
carried over from the incoming delivery. -/
theorem c5_payload_bit_identical (q : String) (d : Delivery) (rc : Nat)
    (reason : Option String) (er et : String) (now : Nat)
    (outcome : HandlerOutcome) (p a : Bool) :
    (retryPublish q d.data d.properties rc reason).data = d.data ∧
    (dlqPublish q d.data d.properties er et now).data = d.data ∧
    (∀ m ∈ publishes (process_message q d outcome p a now),
      m.data = d.data) ∧
    agreesOutsideHeadersAndDeliveryMeta BasicProperties.default
      (retryPublish q d.data d.properties rc reason).properties ∧
    agreesOutsideHeadersAndDeliveryMeta BasicProperties.default
      (dlqPublish q d.data d.properties er et now).properties ∧
    (retryPublish q d.data d.properties rc reason).properties.deliveryMode
      = some 2 ∧
    (retryPublish q d.data d.properties rc reason).properties.timestamp
      = none ∧
    (dlqPublish q d.data d.properties er et now).properties.deliveryMode
      = some 2 ∧
    (dlqPublish q d.data d.properties er et now).properties.timestamp
      = some now := by
  refine ⟨rfl, rfl, ?_, ?_, ?_, rfl, rfl, rfl, rfl⟩
  · intro m hm
    rcases outcome with _ | rr | rr
    · rcases a <;> simp [process_message, publishes] at hm
    · simp only [process_message] at hm
      by_cases hrc : MAX_RETRIES ≤ get_retry_count d.properties
      · rw [if_pos hrc] at hm
        cases p with
        | false => simp [reject_to_dlq_with_reason, publishes] at hm
        | true =>
            cases a with
            | false =>
                simp [reject_to_dlq_with_reason, publishes] at hm
                subst hm; rfl
            | true =>
                simp [reject_to_dlq_with_reason, publishes] at hm
                subst hm; rfl
      · rw [if_neg hrc] at hm
        cases p with
        | false => simp [retry_message, publishes] at hm
        | true =>
            cases a with
            | false =>
                simp [retry_message, publishes] at hm
                subst hm; rfl
            | true =>
                simp [retry_message, publishes] at hm
                subst hm; rfl
    · cases p with
      | false => simp [process_message, reject_to_dlq_with_reason,
          publishes] at hm
      | true =>
          cases a with
          | false =>
              simp [process_message, reject_to_dlq_with_reason,
                publishes] at hm
              subst hm; rfl
          | true =>
              simp [process_message, reject_to_dlq_with_reason,
                publishes] at hm
              subst hm; rfl
  · exact ⟨rfl, rfl, rfl, rfl, rfl, rfl, rfl, rfl, rfl, rfl, rfl⟩
  · exact ⟨rfl, rfl, rfl, rfl, rfl, rfl, rfl, rfl, rfl, rfl, rfl⟩

/-- Witness for C5 (amended): payload preserved at a concrete delivery. -/
theorem c5_payload_bit_identical_witness :
    (retryPublish "telemetry" [9, 9] BasicProperties.default 0
        (some "x")).data = [9, 9] :=
  (c5_payload_bit_identical "telemetry"
    ⟨2, "rk", [9, 9], BasicProperties.default⟩ 0 (some "x") "e" "t" 3
    HandlerOutcome.ok true true).1

/-- C7 counterexample: with the republish failing (`publishOk = false`),
`process_message` still emits the `messages_dlq_total` increment (transient
at retry count 3) and the `messages_retried_total` increment (transient at
retry count 0), although no publish was confirmed and the delivery was
never acked — the counters are not incremented "only after the republish
and ack have completed". -/
theorem c7_counter_incremented_on_failed_republish :
    (Event.counterInc "messages_dlq_total" ∈
        process_message "telemetry"
          ⟨7, "telemetry", [1],
            { headers := some [("x-retry-count", AMQPValue.longUInt 3)] }⟩
          (HandlerOutcome.transient "boom") false false 0 ∧
      publishes (process_message "telemetry"
          ⟨7, "telemetry", [1],
            { headers := some [("x-retry-count", AMQPValue.longUInt 3)] }⟩
          (HandlerOutcome.transient "boom") false false 0) = [] ∧
      acked (process_message "telemetry"
          ⟨7, "telemetry", [1],
            { headers := some [("x-retry-count", AMQPValue.longUInt 3)] }⟩
          (HandlerOutcome.transient "boom") false false 0) 7 = false) ∧
    (Event.counterInc "messages_retried_total" ∈
        process_message "telemetry"
          ⟨8, "telemetry", [1], BasicProperties.default⟩
          (HandlerOutcome.transient "boom") false false 0 ∧
      publishes (process_message "telemetry"
          ⟨8, "telemetry", [1], BasicProperties.default⟩
          (HandlerOutcome.transient "boom") false false 0) = [] ∧
      acked (process_message "telemetry"
          ⟨8, "telemetry", [1], BasicProperties.default⟩
          (HandlerOutcome.transient "boom") false false 0) 8 = false) := by
  decide

/-- C7 (amended): `messages_dlq_total` and `messages_retried_total` are
incremented when the corresponding routing branch is chosen, BEFORE the
republish is attempted: the increment event is present in the trace for
every publish/ack outcome, and every broker operation (publish or ack) of
the trace comes after it. -/
theorem c7_counters_incremented_before_republish (q : String)
    (d : Delivery) (r : String) (p a : Bool) (now : Nat) :
    (MAX_RETRIES ≤ get_retry_count d.properties →
      ∃ pre post,
        process_message q d (HandlerOutcome.transient r) p a now =
          pre ++ Event.counterInc "messages_dlq_total" :: post ∧
        pre.all (fun e => !isBrokerOp e) = true) ∧
    (get_retry_count d.properties < MAX_RETRIES →
      ∃ pre post,
        process_message q d (HandlerOutcome.transient r) p a now =
          pre ++ Event.counterInc "messages_retried_total" :: post ∧
        pre.all (fun e => !isBrokerOp e) = true) ∧
    (∃ pre post,
      process_message q d (HandlerOutcome.permanent r) p a now =
        pre ++ Event.counterInc "messages_dlq_total" :: post ∧
      pre.all (fun e => !isBrokerOp e) = true) := by
  refine ⟨?_, ?_, ?_⟩
  · intro h
    refine ⟨[Event.counterVecInc "messages_failed_total" [q, "transient"],
      Event.observe "message_processing_duration_seconds"
        [q, "transient_error"]],
      (reject_to_dlq_with_reason q d.deliveryTag d.data d.properties r
        "transient" now p a).1, ?_, by simp [isBrokerOp]⟩
    simp only [process_message]
    rw [if_pos h]
  · intro h
    refine ⟨[Event.counterVecInc "messages_failed_total" [q, "transient"],
      Event.observe "message_processing_duration_seconds"
        [q, "transient_error"]],
      (retry_message q d.deliveryTag d.data d.properties
        (get_retry_count d.properties) (some r) p a).1, ?_,
      by simp [isBrokerOp]⟩
    simp only [process_message]
    rw [if_neg (not_le.mpr h)]
  · refine ⟨[Event.counterVecInc "messages_failed_total" [q, "permanent"],
      Event.observe "message_processing_duration_seconds"
        [q, "permanent_error"]],
      (reject_to_dlq_with_reason q d.deliveryTag d.data d.properties r
        "permanent" now p a).1, rfl, by simp [isBrokerOp]⟩

/-- Witness for C7 (amended): a permanent failure with a failed republish
still has the `messages_dlq_total` increment before any broker
operation. -/
theorem c7_counters_incremented_before_republish_witness :
    ∃ pre post,
      process_message "telemetry" ⟨3, "rk", [5], BasicProperties.default⟩
          (HandlerOutcome.permanent "bad") false false 0 =
        pre ++ Event.counterInc "messages_dlq_total" :: post ∧
      pre.all (fun e => !isBrokerOp e) = true :=
  (c7_counters_incremented_before_republish "telemetry"
    ⟨3, "rk", [5], BasicProperties.default⟩ "bad" false false 0).2.2

/-- C8: `setup_queues` for main queue `Q` declares exactly three durable
queues — `Q.dlq` with no dead-lettering arguments, `Q.retry` with
`x-message-ttl = 5000`, `x-dead-letter-exchange = ""`,
`x-dead-letter-routing-key = Q`, and `Q` with
`x-dead-letter-exchange = ""`, `x-dead-letter-routing-key = "Q.dlq"` —
and on any declaration failure returns a topology-setup error naming the
failed declaration. -/
theorem c8_setup_queues_topology (q : String)
    (declare : QueueDeclaration → Option String) :
    (declare (dlqDeclaration q) = none →
      declare (retryDeclaration q) = none →
      declare (mainDeclaration q) = none →
      setup_queues q declare = Except.ok [dlqDeclaration q,
        retryDeclaration q, mainDeclaration q]) ∧
    ((dlqDeclaration q).durable = true ∧
      (retryDeclaration q).durable = true ∧
      (mainDeclaration q).durable = true) ∧
    ((dlqDeclaration q).name = q ++ ".dlq" ∧
      (dlqDeclaration q).args = []) ∧
    ((retryDeclaration q).name = q ++ ".retry" ∧
      FieldTable.get (retryDeclaration q).args "x-message-ttl"
        = some (AMQPValue.longInt 5000) ∧
      FieldTable.get (retryDeclaration q).args "x-dead-letter-exchange"
        = some (AMQPValue.longString "") ∧
      FieldTable.get (retryDeclaration q).args "x-dead-letter-routing-key"
        = some (AMQPValue.longString q)) ∧
    ((mainDeclaration q).name = q ∧
      FieldTable.get (mainDeclaration q).args "x-dead-letter-exchange"
        = some (AMQPValue.longString "") ∧
      FieldTable.get (mainDeclaration q).args "x-dead-letter-routing-key"
        = some (AMQPValue.longString (q ++ ".dlq"))) ∧
    (∀ e, declare (dlqDeclaration q) = some e →
      setup_queues q declare = Except.error
        (ConsumerError.setupFailed ("DLQ setup failed: " ++ e))) ∧
    (∀ e, declare (dlqDeclaration q) = none →
      declare (retryDeclaration q) = some e →
      setup_queues q declare = Except.error
        (ConsumerError.setupFailed ("Retry queue setup failed: " ++ e))) ∧
    (∀ e, declare (dlqDeclaration q) = none →
      declare (retryDeclaration q) = none →
      declare (mainDeclaration q) = some e →
      setup_queues q declare = Except.error
        (ConsumerError.setupFailed ("Main queue setup failed: " ++ e))) := by
  refine ⟨?_, ⟨rfl, rfl, rfl⟩, ⟨rfl, rfl⟩, ⟨rfl, ?_, ?_, ?_⟩,
    ⟨rfl, ?_, ?_⟩, ?_, ?_, ?_⟩
  · intro h1 h2 h3
    simp [setup_queues, h1, h2, h3]
  · unfold retryDeclaration retryQueueArgs
    rw [FieldTable.get_insert, if_neg (by decide), FieldTable.get_insert,
      if_neg (by decide), FieldTable.get_insert, if_pos rfl]
  · unfold retryDeclaration retryQueueArgs
    rw [FieldTable.get_insert, if_neg (by decide), FieldTable.get_insert,
      if_pos rfl]
  · unfold retryDeclaration retryQueueArgs
    rw [FieldTable.get_insert, if_pos rfl]
  · unfold mainDeclaration mainQueueArgs
    rw [FieldTable.get_insert, if_neg (by decide), FieldTable.get_insert,
      if_pos rfl]
  · unfold mainDeclaration mainQueueArgs
    rw [FieldTable.get_insert, if_pos rfl]
  · intro e h
    simp [setup_queues, h]
  · intro e h1 h2
    simp [setup_queues, h1, h2]
  · intro e h1 h2 h3
    simp [setup_queues, h1, h2, h3]

/-- Witness for C8: with a broker that accepts every declaration, the
three declarations are issued and returned. -/
theorem c8_setup_queues_topology_witness :
    setup_queues "telemetry" (fun _ => none) =
      Except.ok [dlqDeclaration "telemetry", retryDeclaration "telemetry",
        mainDeclaration "telemetry"] :=
  (c8_setup_queues_topology "telemetry" (fun _ => none)).1 rfl rfl rfl

theorem consume_loop_stillRunning (q : String)
    (steps : List StreamStep) :
    (consume_loop q steps).2 = LoopExit.stillRunning ↔
      steps.all (fun s => !isExitStep s) = true := by
  induction steps with
  | nil => simp [consume_loop]
  | cons s rest ih =>
      cases s <;> simp [consume_loop, isExitStep, ih]

/-- C9: the consumption loop never exits because of a transport-level
receive error (such an observation leaves the loop's behaviour unchanged);
a shutdown observation exits at once, dispatching no further delivery, as
does the end of the delivery stream; and the loop is still running exactly
when no shutdown or stream-end has been observed. -/
theorem c9_loop_exit_conditions (q : String) (steps : List StreamStep) :
    consume_loop q (StreamStep.recvError :: steps) =
      consume_loop q steps ∧
    (∀ d o p a n, consume_loop q (StreamStep.delivery d o p a n :: steps)
        = (process_message q d o p a n :: (consume_loop q steps).1,
            (consume_loop q steps).2)) ∧
    consume_loop q (StreamStep.shutdown :: steps)
      = ([], LoopExit.shutdownExit) ∧
    consume_loop q (StreamStep.streamEnd :: steps)
      = ([], LoopExit.streamEndExit) ∧
    ((consume_loop q steps).2 = LoopExit.stillRunning ↔
      steps.all (fun s => !isExitStep s) = true) :=
  ⟨rfl, fun _ _ _ _ _ => rfl, rfl, rfl, consume_loop_stillRunning q steps⟩

/-- Witness for C9: a receive error between two deliveries is skipped and
the loop keeps consuming. -/
theorem c9_loop_exit_conditions_witness :
    consume_loop "telemetry" (StreamStep.recvError ::
        [StreamStep.delivery ⟨1, "rk", [2], BasicProperties.default⟩
          HandlerOutcome.ok true true 0]) =
      consume_loop "telemetry"
        [StreamStep.delivery ⟨1, "rk", [2], BasicProperties.default⟩
          HandlerOutcome.ok true true 0] :=
  (c9_loop_exit_conditions "telemetry"
    [StreamStep.delivery ⟨1, "rk", [2], BasicProperties.default⟩
      HandlerOutcome.ok true true 0]).1

end Collector
